import Mathlib

/-!
Shallow embedding of the akg-cli chat client (package `akg_cli_app`):
Python string primitives, the chat state and its operations from
`chat.py`, the credential loading from `chat.py` and `api.py`, the panel
rendering from `panels.py` and `chat.py`, and the streaming line parser
from `api.py`, together with theorems about the input/output scheduling
subsystem.
-/

namespace AkgCli

/-! ## Python string primitives -/

/-- Characters treated as whitespace by Python `str.strip()`. -/
def isPyWhitespace (c : Char) : Bool :=
  c = ' ' || c = '\t' || c = '\n' || c = '\r' || c = '\x0b' || c = '\x0c'

/-- Python `str.strip()` on a character list: drop whitespace from both ends. -/
def stripList (l : List Char) : List Char :=
  ((l.dropWhile isPyWhitespace).reverse.dropWhile isPyWhitespace).reverse

/-- Python `s.strip()`. -/
def pyStrip (s : String) : String :=
  String.mk (stripList s.data)

/-- Python `s.strip(c)` for a one-character argument. -/
def pyStripChar (s : String) (c : Char) : String :=
  String.mk (((s.data.dropWhile (· = c)).reverse.dropWhile (· = c)).reverse)

/-- Python `s.startswith(p)`. -/
def pyStartswith (s p : String) : Bool :=
  p.data.isPrefixOf s.data

/-- Python `s.lower()` (ASCII case folding, as used on command strings). -/
def pyLower (s : String) : String :=
  String.mk (s.data.map Char.toLower)

/-- Python `s[n:]` in characters. -/
def pyDropChars (s : String) (n : Nat) : String :=
  String.mk (s.data.drop n)

/-- Python `s[:n]` in characters. -/
def pyTakeChars (s : String) (n : Nat) : String :=
  String.mk (s.data.take n)

/-- Python `len(s)` in characters. -/
def pyLen (s : String) : Nat :=
  s.data.length

/-- Python `s.ljust(n)`: pad on the right with spaces to length `n`. -/
def pyLjust (s : String) (n : Nat) : String :=
  String.mk (s.data ++ List.replicate (n - s.data.length) ' ')

/-- Python `s.count(c)` for a one-character needle. -/
def pyCountChar (s : String) (c : Char) : Nat :=
  s.data.count c

/-- Line-break characters recognised by Python `str.splitlines()`. -/
def isPyLineBreak (c : Char) : Bool :=
  c = '\n' || c = '\r' || c = '\x0b' || c = '\x0c' || c = '\x1c' ||
    c = '\x1d' || c = '\x1e' || c = '\x85' || c = '\u2028' || c = '\u2029'

/-- Worker for `pySplitlines`, accumulating the current line in reverse;
a `\r\n` pair ends a single line. -/
def splitlinesAux : List Char → List Char → List String
  | [], acc => if acc.isEmpty then [] else [String.mk acc.reverse]
  | '\r' :: '\n' :: rest, acc => String.mk acc.reverse :: splitlinesAux rest []
  | c :: rest, acc =>
    if isPyLineBreak c then String.mk acc.reverse :: splitlinesAux rest []
    else splitlinesAux rest (c :: acc)

/-- Python `s.splitlines()`. -/
def pySplitlines (s : String) : List String :=
  splitlinesAux s.data []

/-- Python `"\n".join(l)`. -/
def joinNewline (l : List String) : String :=
  String.intercalate "\n" l

/-- Split a character list at the first `=`; `none` when `=` is absent
(Python `line.split("=", 1)` together with the `"=" in line` test). -/
def splitFirstEq : List Char → Option (List Char × List Char)
  | [] => none
  | c :: rest =>
    if c = '=' then some ([], rest)
    else
      match splitFirstEq rest with
      | none => none
      | some (a, b) => some (c :: a, b)

/-! ## Chat data model (`chat.py`, `AKGChat.__init__`) -/

/-- Role tag of a conversation turn. -/
inductive Role
  | user
  | assistant
deriving DecidableEq, Repr

/-- One role/content entry of `self.messages`. -/
structure Turn where
  role : Role
  content : String
deriving DecidableEq, Repr

/-- The panel provider installed in the chat state (`panels.py` ships
`TimePanel`). -/
inductive ProviderKind
  | timePanel
deriving DecidableEq, Repr

/-- The mutable fields of `AKGChat` used by the scheduling subsystem. -/
structure ChatState where
  messages : List Turn
  model : String
  busy : Bool
  current_request_id : Nat
  exit_requested : Bool
  panel_visible : Bool
  panel_provider : Option ProviderKind
deriving DecidableEq, Repr

/-- The state set up by `AKGChat.__init__`. -/
def initialChatState : ChatState where
  messages := []
  model := "deepseek-chat"
  busy := false
  current_request_id := 0
  exit_requested := false
  panel_visible := true
  panel_provider := some ProviderKind.timePanel

/-- One user-visible emission (`self.emit` / `emit_in_terminal` call
sites), abstracted from the rendered text. -/
inductive Event
  | welcome
  | userEcho (text : String)
  | thinking
  | assistantHeader
  | assistantBody (text : String)
  | blankLine
  | apiError (status : Nat) (body : String)
  | genericError (msg : String)
  | interrupted
  | truncated
  | helpShown
  | goodbye
  | cleared
  | modelSwitched (fromModel toModel : String)
  | historyCount (n : Nat)
  | unknownCommand (cmd : String)
  | helpHint
deriving DecidableEq, Repr

/-- Embeds `AKGChat.handle_command_ui` (chat.py lines 156-186): dispatch on the
trimmed, lower-cased input, returning the updated state, the emissions,
and the boolean result (`false` requests shutdown). -/
def handle_command_ui (s : ChatState) (user_input : String) :
    ChatState × List Event × Bool :=
  let cmd := pyLower (pyStrip user_input)
  if cmd = "/help" then
    (s, [Event.helpShown], true)
  else if cmd = "/exit" ∨ cmd = "/quit" then
    (s, [Event.goodbye], false)
  else if cmd = "/clear" then
    ({ s with messages := [] }, [Event.cleared], true)
  else if cmd = "/model" then
    let current_model := s.model
    let new_model :=
      if current_model = "deepseek-chat" then "deepseek-coder" else "deepseek-chat"
    ({ s with model := new_model },
      [Event.modelSwitched current_model new_model], true)
  else if cmd = "/history" then
    (s, [Event.historyCount s.messages.length], true)
  else
    (s, [Event.unknownCommand cmd, Event.helpHint], true)

/-- Outcome of the executor call `self.api.chat(...)` as observed by
`handle_user_input`: a reply, an `httpx.HTTPStatusError`, or any other
exception. -/
inductive BackendResult
  | ok (response : String)
  | httpError (status : Nat) (body : String)
  | exn (msg : String)
deriving DecidableEq, Repr

/-- Holds (`true`) exactly on the two exception branches of `handle_user_input`. -/
def BackendResult.isFailure : BackendResult → Bool
  | ok _ => false
  | httpError _ _ => true
  | exn _ => true

/-- The part of `AKGChat.handle_user_input` (chat.py lines 193-205) that
runs before the backend call: echo the user message, append the user
turn, set `busy`, increment `current_request_id` and capture it as the
local `request_id`. -/
def handle_user_input_start (s : ChatState) (text : String) :
    ChatState × Nat × List Event :=
  let s1 : ChatState :=
    { s with
      messages := s.messages ++ [⟨Role.user, text⟩]
      busy := true
      current_request_id := s.current_request_id + 1 }
  (s1, s1.current_request_id, [Event.userEcho text, Event.thinking])

/-- The part of `AKGChat.handle_user_input` (chat.py lines 207-245) that
runs once the backend call returns: the stale-epoch checks, the success
append, the failure rollback (`self.messages.pop()` when non-empty), and
the `finally` clause that clears `busy` only when the captured
`request_id` is still current. -/
def handle_user_input_finish (s : ChatState) (request_id : Nat)
    (r : BackendResult) : ChatState × List Event :=
  match r with
  | BackendResult.ok response =>
    if request_id ≠ s.current_request_id then (s, [])
    else
      ({ s with
          messages := s.messages ++ [⟨Role.assistant, response⟩]
          busy := false },
        [Event.assistantHeader, Event.assistantBody response, Event.blankLine])
  | BackendResult.httpError status body =>
    if request_id ≠ s.current_request_id then (s, [])
    else
      ({ s with
          messages := if s.messages.isEmpty then s.messages else s.messages.dropLast
          busy := false },
        [Event.apiError status body])
  | BackendResult.exn msg =>
    if request_id ≠ s.current_request_id then (s, [])
    else
      ({ s with
          messages := if s.messages.isEmpty then s.messages else s.messages.dropLast
          busy := false },
        [Event.genericError msg])

/-- The slash-command branch of `AKGChat.handle_user_input` (chat.py
lines 189-192): run the command and set `exit_requested` when it asked
for shutdown. -/
def handle_command_path (s : ChatState) (text : String) : ChatState × List Event :=
  let (s1, out, cont) := handle_command_ui s text
  if cont then (s1, out) else ({ s1 with exit_requested := true }, out)

/-- Embeds `AKGChat.handle_user_input` (chat.py lines 188-245) with the backend
outcome supplied as an oracle, for runs in which no concurrent mutation
interleaves with the backend call. -/
def handle_user_input (s : ChatState) (text : String) (r : BackendResult) :
    ChatState × List Event :=
  if pyStartswith text "/" then
    handle_command_path s text
  else
    let (s1, rid, out1) := handle_user_input_start s text
    let (s2, out2) := handle_user_input_finish s1 rid r
    (s2, out1 ++ out2)

/-- The `c-c` key binding of `AKGChat.__init__` (chat.py lines 70-79):
while busy, advance the epoch, clear `busy` and emit the interrupted
notice; while idle, request exit. -/
def ctrl_c (s : ChatState) : ChatState × List Event :=
  if s.busy then
    ({ s with current_request_id := s.current_request_id + 1, busy := false },
      [Event.interrupted])
  else
    ({ s with exit_requested := true }, [])

/-- Submit a conversation message, press Ctrl+C while the request is in
flight, then let the orphaned backend call return with outcome `r`. -/
def cancel_scenario (s : ChatState) (text : String) (r : BackendResult) :
    ChatState × List Event :=
  let (s1, rid, out1) := handle_user_input_start s text
  let (s2, out2) := ctrl_c s1
  let (s3, out3) := handle_user_input_finish s2 rid r
  (s3, out1 ++ out2 ++ out3)

/-- Number of newline-delimited rows of a submission:
`text.count("\n") + 1`. -/
def rowCount (text : String) : Nat :=
  pyCountChar text '\n' + 1

/-- The truncation `"\n".join(text.splitlines()[:10])`. -/
def truncateRows (text : String) : String :=
  joinNewline ((pySplitlines text).take 10)

/-- One iteration of `producer` in `AKGChat.chat_loop` (chat.py lines
283-291) after `prompt_async` returns `text`: discard blank submissions,
truncate overlong ones with a notice, run slash commands, and decide
what is put on the queue. -/
def producer_process (s : ChatState) (text : String) :
    ChatState × List Event × Option String :=
  if pyStrip text = "" then (s, [], none)
  else
    let (text, truncOut) :=
      if rowCount text > 10 then (truncateRows text, [Event.truncated])
      else (text, ([] : List Event))
    if pyStartswith text "/" then
      let (s1, out, cont) := handle_command_ui s text
      if cont then (s1, truncOut ++ out, some text)
      else ({ s1 with exit_requested := true }, truncOut ++ out, none)
    else (s, truncOut, some text)

/-- A full trip of one submitted line through `producer` and then, when
the line was queued, through the `consumer` call to
`handle_user_input`. -/
def process_submission (s : ChatState) (text : String) (r : BackendResult) :
    ChatState × List Event :=
  let (s1, out1, queued) := producer_process s text
  match queued with
  | none => (s1, out1)
  | some t =>
    let (s2, out2) := handle_user_input s1 t r
    (s2, out1 ++ out2)

/-! ## Credential acquisition (chat.py `_load_env_file`,
api.py `DeepSeekAPI.__init__`, chat.py `AKGChat.__init__`) -/

/-- The single-quote character. -/
def squote : Char := Char.ofNat 39

/-- The double-quote character. -/
def dquote : Char := Char.ofNat 34

/-- The loop of `AKGChat._load_env_file` over the lines of `.env`
(chat.py lines 113-128): skip blank and `#` lines, strip an optional
`export ` prefix, skip lines without `=`, and at the first
`DEEPSEEK_API_KEY` line return its stripped, unquoted value when
non-empty (`none` otherwise — the loop returns there either way).
`none` is also the result when no `DEEPSEEK_API_KEY` line exists. -/
def load_env_lines : List String → Option String
  | [] => none
  | raw :: rest =>
    let line := pyStrip raw
    if line = "" ∨ pyStartswith line "#" then load_env_lines rest
    else
      let line := if pyStartswith line "export " then pyStrip (pyDropChars line 7) else line
      match splitFirstEq line.data with
      | none => load_env_lines rest
      | some (k, v) =>
        let key := pyStrip (String.mk k)
        if key ≠ "DEEPSEEK_API_KEY" then load_env_lines rest
        else
          let value := pyStripChar (pyStripChar (pyStrip (String.mk v)) dquote) squote
          if value ≠ "" then some value else none

/-- Python truthiness of `os.getenv("DEEPSEEK_API_KEY")`: the variable is
set and non-empty. -/
def env_is_truthy : Option String → Bool
  | none => false
  | some v => v ≠ ""

/-- Embeds `AKGChat._load_env_file` (chat.py lines 105-130): when the variable is
already truthily set or the `.env` file is absent, leave the environment
unchanged; otherwise set the variable to the value found by
`load_env_lines`, when any. -/
def load_env_file (env : Option String) (file : Option (List String)) :
    Option String :=
  if env_is_truthy env then env
  else
    match file with
    | none => env
    | some lines =>
      match load_env_lines lines with
      | some value => some value
      | none => env

/-- Result of constructing `AKGChat`: either an API client holding the
key, or `sys.exit(1)` after the `ValueError` raised by
`DeepSeekAPI.__init__` (api.py lines 13-16, chat.py lines 45-50). -/
inductive StartupResult
  | started (api_key : String)
  | fatalExit (code : Nat)
deriving DecidableEq, Repr

/-- Startup: `_load_env_file`, then `DeepSeekAPI()`; a missing or falsy
key raises `ValueError`, caught and converted to `sys.exit(1)` before
the chat loop is entered. -/
def startup (env : Option String) (file : Option (List String)) :
    StartupResult :=
  match load_env_file env file with
  | some key =>
    if key ≠ "" then StartupResult.started key else StartupResult.fatalExit 1
  | none => StartupResult.fatalExit 1

/-! ## Panel rendering (panels.py, chat.py `render_panel_prompt`) -/

/-- Embeds `PanelProvider.render` (panels.py lines 8-9): `height` empty lines. -/
def PanelProvider_render (width height : Nat) : List String :=
  List.replicate height ""

/-- Embeds `TimePanel.render` (panels.py lines 15-18): `height` blank lines with
the formatted time written at index 0; the assignment `lines[0] = ...`
raises `IndexError` when `height = 0`, modelled as `none`. -/
def TimePanel_render (now : String) (width height : Nat) :
    Option (List String) :=
  if height = 0 then none
  else
    let lines := List.replicate height ""
    some (("  时间：" ++ now) :: lines.drop 1)

/-- Embeds `AKGChat.render_panel_prompt` (chat.py lines 321-332): no rows when
the panel is hidden or the provider is absent; otherwise render the
provider at the prompt width (at least 10 columns) and fixed height 10,
truncating and right-padding every row to exactly the width. -/
def render_panel_prompt (s : ChatState) (now : String) (termCols : Nat) :
    List String :=
  if s.panel_visible = false ∨ s.panel_provider = none then []
  else
    let width := max 10 termCols
    let height := 10
    let lines := (TimePanel_render now width height).getD []
    (List.range height).map fun i =>
      pyLjust (pyTakeChars (lines.getD i "") width) width

/-! ## Streaming (api.py `DeepSeekAPI.chat_stream`) -/

/-- Embeds `DeepSeekAPI.chat_stream` (api.py lines 52-67) over the received
lines, with the JSON decoding and `choices[0].delta.content` extraction
abstracted as `parse`: `none` models a `json.JSONDecodeError`, `some c`
a successful decode whose extracted content is `c` (possibly `""`, the
`delta.get("content", "")` default). Blank lines and lines not starting
with `data: ` are skipped; `[DONE]` ends the stream. -/
def chat_stream (parse : String → Option String) : List String → List String
  | [] => []
  | line :: rest =>
    if pyStrip line = "" then chat_stream parse rest
    else if pyStartswith line "data: " then
      let data_str := pyDropChars line 6
      if data_str = "[DONE]" then []
      else
        match parse data_str with
        | none => chat_stream parse rest
        | some content =>
          if content ≠ "" then content :: chat_stream parse rest
          else chat_stream parse rest
    else chat_stream parse rest

/-! ## The chat_loop producer/consumer system (chat.py lines 247-298) -/

/-- Program counter of the `producer` task of `chat_loop`. -/
inductive ProdPC
  | top
  | polling
  | prompting
  | done
deriving DecidableEq, Repr

/-- Program counter of the `consumer` task of `chat_loop`: waiting on the
queue, or holding an in-flight request with its captured `request_id`,
or returned. -/
inductive ConsPC
  | idle
  | inflight (request_id : Nat)
  | done
deriving DecidableEq, Repr

/-- A configuration of the event loop: the shared `AKGChat` state, the
FIFO queue contents, the two task counters, and two history variables
recording the order of arrival on the queue and the order of dispatch by
the consumer. -/
structure SysState where
  cs : ChatState
  queue : List String
  prod : ProdPC
  cons : ConsPC
  arrived : List String
  dispatched : List String
deriving DecidableEq, Repr

/-- The configuration at the start of `AKGChat.chat_loop`. -/
def initSys : SysState where
  cs := initialChatState
  queue := []
  prod := ProdPC.top
  cons := ConsPC.idle
  arrived := []
  dispatched := []

/-- Where the producer goes after one `prompt_async` submission: back to
the top of its loop, except that a shutdown-requesting command (queued
item `none` on a non-blank submission) makes it return. -/
def prodAfterSubmit (s : ChatState) (text : String) : ProdPC :=
  if pyStrip text = "" then ProdPC.top
  else if (producer_process s text).2.2 = none then ProdPC.done
  else ProdPC.top

/-- Interleaved small-step semantics of `chat_loop`: producer steps
(chat.py lines 260-291), consumer steps (lines 253-258 together with
`handle_user_input`), and the key bindings (lines 70-85). The submitted
text and the backend outcome of an in-flight request are chosen
nondeterministically. -/
inductive Step : SysState → SysState → Prop
  | prod_top_exit (s : SysState)
      (hp : s.prod = ProdPC.top) (he : s.cs.exit_requested = true) :
      Step s { s with prod := ProdPC.done }
  | prod_top_busy (s : SysState)
      (hp : s.prod = ProdPC.top) (he : s.cs.exit_requested = false)
      (hb : s.cs.busy = true) :
      Step s { s with prod := ProdPC.polling }
  | prod_top_free (s : SysState)
      (hp : s.prod = ProdPC.top) (he : s.cs.exit_requested = false)
      (hb : s.cs.busy = false) :
      Step s { s with prod := ProdPC.prompting }
  | prod_poll_exit (s : SysState)
      (hp : s.prod = ProdPC.polling) (he : s.cs.exit_requested = true) :
      Step s { s with prod := ProdPC.done }
  | prod_poll_spin (s : SysState)
      (hp : s.prod = ProdPC.polling) (he : s.cs.exit_requested = false)
      (hb : s.cs.busy = true) :
      Step s s
  | prod_poll_free (s : SysState)
      (hp : s.prod = ProdPC.polling) (he : s.cs.exit_requested = false)
      (hb : s.cs.busy = false) :
      Step s { s with prod := ProdPC.prompting }
  | prod_eof (s : SysState)
      (hp : s.prod = ProdPC.prompting) :
      Step s { s with prod := ProdPC.done }
  | prod_submit (s : SysState) (text : String)
      (hp : s.prod = ProdPC.prompting) :
      Step s
        { s with
          cs := (producer_process s.cs text).1
          queue := s.queue ++ ((producer_process s.cs text).2.2).toList
          arrived := s.arrived ++ ((producer_process s.cs text).2.2).toList
          prod := prodAfterSubmit s.cs text }
  | cons_get_command (s : SysState) (t : String) (rest : List String)
      (hc : s.cons = ConsPC.idle) (hq : s.queue = t :: rest)
      (hs : pyStartswith t "/" = true) :
      Step s
        { s with
          cs := (handle_command_path s.cs t).1
          queue := rest
          cons := ConsPC.idle
          dispatched := s.dispatched ++ [t] }
  | cons_get_message (s : SysState) (t : String) (rest : List String)
      (hc : s.cons = ConsPC.idle) (hq : s.queue = t :: rest)
      (hs : pyStartswith t "/" = false) :
      Step s
        { s with
          cs := (handle_user_input_start s.cs t).1
          queue := rest
          cons := ConsPC.inflight (handle_user_input_start s.cs t).2.1
          dispatched := s.dispatched ++ [t] }
  | cons_finish (s : SysState) (rid : Nat) (r : BackendResult)
      (hc : s.cons = ConsPC.inflight rid) :
      Step s
        { s with
          cs := (handle_user_input_finish s.cs rid r).1
          cons := ConsPC.idle }
  | cons_close (s : SysState)
      (hc : s.cons = ConsPC.idle) (hp : s.prod = ProdPC.done)
      (hq : s.queue = []) :
      Step s { s with cons := ConsPC.done }
  | key_ctrl_c (s : SysState) :
      Step s { s with cs := (ctrl_c s.cs).1 }
  | key_f2 (s : SysState) :
      Step s { s with cs := { s.cs with panel_visible := !s.cs.panel_visible } }

/-- Configurations reachable from the start of `chat_loop`. -/
inductive Reachable : SysState → Prop
  | init : Reachable initSys
  | step {s s2 : SysState} : Reachable s → Step s s2 → Reachable s2

/-! ## Helper lemmas -/

/-- A completion whose captured `request_id` is no longer current leaves
the state untouched and emits nothing. -/
theorem finish_stale (s : ChatState) (request_id : Nat) (r : BackendResult)
    (h : request_id ≠ s.current_request_id) :
    handle_user_input_finish s request_id r = (s, []) := by
  cases r <;> simp [handle_user_input_finish, h]

/-- A completion either clears `busy` or is the stale no-op. -/
theorem finish_busy_or_noop (s : ChatState) (request_id : Nat)
    (r : BackendResult) :
    (handle_user_input_finish s request_id r).1.busy = false ∨
      (handle_user_input_finish s request_id r = (s, []) ∧
        request_id ≠ s.current_request_id) := by
  by_cases h : request_id = s.current_request_id
  · subst h
    cases r <;> simp [handle_user_input_finish]
  · exact Or.inr ⟨finish_stale s request_id r h, h⟩

/-- The function `handle_command_ui` only ever touches `messages` and `model`. -/
theorem handle_command_ui_frame (s : ChatState) (u : String) :
    (handle_command_ui s u).1.busy = s.busy ∧
    (handle_command_ui s u).1.current_request_id = s.current_request_id ∧
    (handle_command_ui s u).1.exit_requested = s.exit_requested ∧
    (handle_command_ui s u).1.panel_visible = s.panel_visible ∧
    (handle_command_ui s u).1.panel_provider = s.panel_provider := by
  unfold handle_command_ui
  dsimp only
  split_ifs <;> simp

/-- The command path leaves `busy` and `current_request_id` alone. -/
theorem handle_command_path_frame (s : ChatState) (u : String) :
    (handle_command_path s u).1.busy = s.busy ∧
    (handle_command_path s u).1.current_request_id = s.current_request_id := by
  unfold handle_command_path
  have h := handle_command_ui_frame s u
  dsimp only
  split_ifs <;> simp_all

/-- One producer iteration leaves `busy` and `current_request_id`
alone. -/
theorem producer_process_frame (s : ChatState) (text : String) :
    (producer_process s text).1.busy = s.busy ∧
    (producer_process s text).1.current_request_id = s.current_request_id := by
  unfold producer_process
  have h1 := handle_command_ui_frame s (truncateRows text)
  have h2 := handle_command_ui_frame s text
  dsimp only
  split_ifs <;> simp_all

/-- After the Ctrl+C binding runs, `busy` is always clear. -/
theorem ctrl_c_busy (s : ChatState) : (ctrl_c s).1.busy = false := by
  unfold ctrl_c
  split_ifs with h <;> simp_all

/-- The function `handle_command_ui` never emits the truncation notice. -/
theorem handle_command_ui_no_truncated (s : ChatState) (u : String) :
    (handle_command_ui s u).2.1.count Event.truncated = 0 := by
  unfold handle_command_ui
  dsimp only
  split_ifs <;> simp [List.count_cons]

/-- Holds (`true`) exactly on the model-switch notice. -/
def isModelSwitched : Event → Bool
  | Event.modelSwitched _ _ => true
  | _ => false

/-- Holds (`true`) exactly on the two failure reports of `handle_user_input`. -/
def isErrorReport : Event → Bool
  | Event.apiError _ _ => true
  | Event.genericError _ => true
  | _ => false

/-! ## Claims -/

/-- C1: if a request was started with captured epoch `request_id` and the
current epoch has advanced past it by the time the backend call returns
— whatever the outcome — then `handle_user_input` performs no further
state mutation: the conversation is not appended to or popped, `busy` is
left untouched (the whole state is returned unchanged), and nothing is
emitted. -/
theorem C1_stale_result_dropped (s : ChatState) (request_id : Nat)
    (r : BackendResult) (h : request_id < s.current_request_id) :
    handle_user_input_finish s request_id r = (s, []) :=
  finish_stale s request_id r (Nat.ne_of_lt h)

/-- Witness for C1 at a concrete state whose epoch has advanced past the
captured id 0. -/
theorem C1_witness :
    (0 : Nat) <
        ({ initialChatState with current_request_id := 1 } : ChatState).current_request_id ∧
    handle_user_input_finish { initialChatState with current_request_id := 1 } 0
        (BackendResult.ok "hi")
      = ({ initialChatState with current_request_id := 1 }, []) :=
  ⟨by decide, C1_stale_result_dropped _ 0 _ (by decide)⟩

/-- C2 counterexample: submitting "hello" from the initial state,
cancelling with Ctrl+C, then letting the orphaned call complete leaves
the conversation one turn LONGER than before the submission — the
speculative user turn is never rolled back on cancellation — refuting
the claim that the length is unchanged. -/
theorem C2_counterexample :
    (cancel_scenario initialChatState "hello" (BackendResult.ok "hi")).1.messages.length
      ≠ initialChatState.messages.length := by decide

/-- C2 (amended): cancelling an in-flight request and letting the
original call complete leaves the conversation equal to its
pre-submission value plus the dangling user turn (length one greater),
leaves `busy` false, and emits exactly one interrupted notice. -/
theorem C2_cancel_interrupt (s : ChatState) (text : String) (r : BackendResult) :
    (cancel_scenario s text r).1.messages = s.messages ++ [⟨Role.user, text⟩] ∧
    (cancel_scenario s text r).1.busy = false ∧
    (cancel_scenario s text r).2.count Event.interrupted = 1 := by
  unfold cancel_scenario handle_user_input_start ctrl_c
  dsimp only
  rw [finish_stale _ _ _ (by simp)]
  simp [List.count_cons]

/-- C3 (code-bug exhibit): a single submission of `/model` runs
`handle_command_ui` twice — once in `producer`, after which the line is
still put on the queue, and once again in `handle_user_input` when the
consumer dequeues it — so the model toggles twice, ending where it
started, with two switch notices, instead of the single documented
toggle to the other identifier. -/
theorem C3_double_dispatch :
    (process_submission initialChatState "/model" (BackendResult.ok "")).1.model
      = initialChatState.model ∧
    (process_submission initialChatState "/model" (BackendResult.ok "")).2.countP
        (fun e => isModelSwitched e) = 2 := by
  decide

/-- C4: when a non-command request fails (the backend call raises),
`handle_user_input` removes the most recent user turn — restoring the
conversation to its pre-submission value, so no dangling user turn
without a matching assistant turn remains — clears `busy`, and reports
the failure as visible text. -/
theorem C4_failure_rollback (s : ChatState) (text : String) (r : BackendResult)
    (hcmd : pyStartswith text "/" = false)
    (hfail : r.isFailure = true) :
    (handle_user_input s text r).1.messages = s.messages ∧
    (handle_user_input s text r).1.busy = false ∧
    (handle_user_input s text r).2.any isErrorReport = true := by
  cases r with
  | ok response => simp [BackendResult.isFailure] at hfail
  | httpError status body =>
    simp [handle_user_input, hcmd, handle_user_input_start,
      handle_user_input_finish, List.dropLast_concat, isErrorReport]
  | exn msg =>
    simp [handle_user_input, hcmd, handle_user_input_start,
      handle_user_input_finish, List.dropLast_concat, isErrorReport]

/-- C5: a non-blank submission of more than 10 newline-delimited rows is
truncated to exactly the first 10 rows before anything is put on the
FIFO queue, with the truncation notice emitted exactly once; a
submission of 10 or fewer rows is queued unchanged with no notice. -/
theorem C5_truncation (s : ChatState) (text : String)
    (hnb : pyStrip text ≠ "") :
    (rowCount text > 10 →
      (∀ q, (producer_process s text).2.2 = some q → q = truncateRows text) ∧
      (producer_process s text).2.1.count Event.truncated = 1) ∧
    (rowCount text ≤ 10 →
      (∀ q, (producer_process s text).2.2 = some q → q = text) ∧
      (producer_process s text).2.1.count Event.truncated = 0) := by
  unfold producer_process
  dsimp only
  rw [if_neg hnb]
  constructor
  · intro hgt
    rw [if_pos hgt]
    have h1 := handle_command_ui_no_truncated s (truncateRows text)
    dsimp only
    split_ifs <;> simp_all [List.count_append, List.count_cons]
  · intro hle
    rw [if_neg (by omega : ¬ rowCount text > 10)]
    have h1 := handle_command_ui_no_truncated s text
    dsimp only
    split_ifs <;> simp_all [List.count_append, List.count_cons]

/-- Witness for C5 on a 12-row submission: it is queued as exactly its
first 10 rows, with one truncation notice. -/
theorem C5_witness :
    pyStrip "a\nb\nc\nd\ne\nf\ng\nh\ni\nj\nk\nl" ≠ "" ∧
    ((∀ q,
        (producer_process initialChatState "a\nb\nc\nd\ne\nf\ng\nh\ni\nj\nk\nl").2.2
          = some q →
        q = truncateRows "a\nb\nc\nd\ne\nf\ng\nh\ni\nj\nk\nl") ∧
      (producer_process initialChatState
          "a\nb\nc\nd\ne\nf\ng\nh\ni\nj\nk\nl").2.1.count Event.truncated = 1) :=
  ⟨by decide,
    (C5_truncation initialChatState "a\nb\nc\nd\ne\nf\ng\nh\ni\nj\nk\nl"
        (by decide)).1 (by decide)⟩

/-- C7: the credential is taken from the environment variable when
truthily set; otherwise from the first `DEEPSEEK_API_KEY=value` line of
`.env`, with blank and `#` lines ignored, an optional `export ` prefix
stripped and surrounding single or double quotes stripped; and when no
credential is obtained from either source, startup exits fatally with
code 1 before the loop. -/
theorem C7_credential :
    (∀ env file, env_is_truthy env = true → load_env_file env file = env) ∧
    (∀ raw rest, (pyStrip raw = "" ∨ pyStartswith (pyStrip raw) "#" = true) →
      load_env_lines (raw :: rest) = load_env_lines rest) ∧
    load_env_file none
        (some ["# comment", "", "export DEEPSEEK_API_KEY=\x22sk-abc\x22"])
      = some "sk-abc" ∧
    load_env_file none (some ["OTHER=1", "  DEEPSEEK_API_KEY=\x27sk-xyz\x27  "])
      = some "sk-xyz" ∧
    (∀ env file, env_is_truthy (load_env_file env file) = false →
      startup env file = StartupResult.fatalExit 1) := by
  refine ⟨?_, ?_, by decide, by decide, ?_⟩
  · intro env file h
    unfold load_env_file
    rw [if_pos h]
  · intro raw rest h
    simp only [load_env_lines]
    rw [if_pos h]
  · intro env file h
    unfold startup
    cases hl : load_env_file env file with
    | none => rfl
    | some key =>
      rw [hl] at h
      simp [env_is_truthy] at h
      simp [h]

/-- Witness for C7: a truthily set environment variable is used as is. -/
theorem C7_witness :
    env_is_truthy (some "k") = true ∧ load_env_file (some "k") none = some "k" :=
  ⟨by decide, C7_credential.1 (some "k") none (by decide)⟩

/-- Length of a Python-style right-pad of a Python-style char slice. -/
theorem pyLjust_pyTake_len (str : String) (n : Nat) :
    pyLen (pyLjust (pyTakeChars str n) n) = n := by
  simp [pyLen, pyLjust, pyTakeChars]

/-- C8 counterexample: at `height = 0` the default panel implementation
does not return exactly `height` lines — the assignment `lines[0] = ...`
in `TimePanel.render` raises `IndexError` (modelled as `none`) — so the
contract does not hold for every width and height. -/
theorem C8_counterexample :
    ¬ ((TimePanel_render "2026-10-12 00:00:00" 80 0).map List.length
        = some 0) := by decide

/-- C8 (amended): for every width and every height at least 1,
`TimePanel.render` returns exactly `height` lines — the current time
line first, blank lines after — and the prompt-side panel rendering pads
or truncates each of its fixed 10 rows to exactly the prompt width (at
least 10 columns); when the panel is invisible the overlay contributes
zero rows. -/
theorem C8_panel_render (now : String) (width height termCols : Nat)
    (s : ChatState) (h1 : 1 ≤ height) :
    TimePanel_render now width height
      = some (("  时间：" ++ now) :: List.replicate (height - 1) "") ∧
    (∀ lines, TimePanel_render now width height = some lines →
      lines.length = height) ∧
    (s.panel_visible = true → s.panel_provider = some ProviderKind.timePanel →
      (render_panel_prompt s now termCols).length = 10 ∧
      ∀ line ∈ render_panel_prompt s now termCols,
        pyLen line = max 10 termCols) ∧
    (s.panel_visible = false → render_panel_prompt s now termCols = []) := by
  have hrender : TimePanel_render now width height
      = some (("  时间：" ++ now) :: List.replicate (height - 1) "") := by
    unfold TimePanel_render
    rw [if_neg (by omega : ¬ height = 0)]
    dsimp only
    congr 1
    cases height with
    | zero => omega
    | succ n => simp [List.replicate_succ]
  refine ⟨hrender, ?_, ?_, ?_⟩
  · intro lines hl
    rw [hrender] at hl
    cases hl
    simp
    omega
  · intro hv hprov
    unfold render_panel_prompt
    rw [if_neg (by simp [hv, hprov])]
    dsimp only
    constructor
    · simp
    · intro line hline
      simp only [List.mem_map] at hline
      obtain ⟨i, _, hi⟩ := hline
      rw [← hi]
      exact pyLjust_pyTake_len _ _
  · intro hv
    unfold render_panel_prompt
    rw [if_pos (Or.inl hv)]

/-- Witness for C8 at height 2. -/
theorem C8_witness :
    TimePanel_render "t" 3 2
      = some (("  时间：" ++ "t") :: List.replicate (2 - 1) "") :=
  (C8_panel_render "t" 3 2 0 initialChatState (by decide)).1

/-- Appending strings appends their character data. -/
theorem string_data_append (a b : String) : (a ++ b).data = a.data ++ b.data :=
  rfl

/-- Any list is a prefix of itself followed by anything, in executable
form. -/
theorem isPrefixOf_self_append (l t : List Char) :
    l.isPrefixOf (l ++ t) = true := by
  induction l with
  | nil => simp [List.isPrefixOf]
  | cons c l ih => simp [List.isPrefixOf, ih]

/-- A string starts with any of its explicit prefixes. -/
theorem pyStartswith_append (p d : String) : pyStartswith (p ++ d) p = true := by
  simp only [pyStartswith, string_data_append]
  exact isPrefixOf_self_append p.data d.data

/-- Slicing the `data: ` marker off `"data: " ++ d` yields `d`. -/
theorem pyDropChars_data_marker (d : String) :
    pyDropChars ("data: " ++ d) 6 = d := by
  unfold pyDropChars
  rw [string_data_append]
  rw [show List.drop 6 ("data: ".data ++ d.data) = d.data from
    List.drop_left ("data: ".data) d.data]

/-- Stripping a list that begins with a non-whitespace character never
yields the empty list. -/
theorem stripList_cons_ne (c : Char) (l : List Char)
    (hc : isPyWhitespace c = false) : stripList (c :: l) ≠ [] := by
  unfold stripList
  rw [List.dropWhile_cons]
  rw [if_neg (by simp [hc])]
  intro h
  rw [List.reverse_eq_nil_iff, List.dropWhile_eq_nil_iff] at h
  have h2 := h c (by simp)
  simp [hc] at h2

/-- A `data: ` line is never blank after stripping. -/
theorem pyStrip_data_marker_ne (d : String) :
    pyStrip ("data: " ++ d) ≠ "" := by
  intro h
  exact stripList_cons_ne 'd' ("ata: ".data ++ d.data) (by decide)
    (congrArg String.data h)

/-- C9: the streaming parser yields exactly the non-empty fragments
extracted from well-formed `data: ` payloads, stops at the `[DONE]` end
marker, skips lines whose payload fails to decode rather than aborting
the stream, and ignores blank lines and lines not starting with
`data: `. -/
theorem C9_stream (parse : String → Option String) (d line : String)
    (rest : List String) :
    chat_stream parse ("data: [DONE]" :: rest) = [] ∧
    (pyStrip line = "" →
      chat_stream parse (line :: rest) = chat_stream parse rest) ∧
    (pyStartswith line "data: " = false →
      chat_stream parse (line :: rest) = chat_stream parse rest) ∧
    (d ≠ "[DONE]" → parse d = none →
      chat_stream parse (("data: " ++ d) :: rest) = chat_stream parse rest) ∧
    (∀ c, d ≠ "[DONE]" → parse d = some c → c ≠ "" →
      chat_stream parse (("data: " ++ d) :: rest)
        = c :: chat_stream parse rest) := by
  refine ⟨?_, ?_, ?_, ?_, ?_⟩
  · simp only [chat_stream]
    rw [if_neg (by decide : ¬ (pyStrip "data: [DONE]" = "")),
      if_pos (by decide : pyStartswith "data: [DONE]" "data: " = true)]
    rw [if_pos (by decide : pyDropChars "data: [DONE]" 6 = "[DONE]")]
  · intro h
    simp only [chat_stream]
    rw [if_pos h]
  · intro h
    simp only [chat_stream]
    by_cases hb : pyStrip line = ""
    · rw [if_pos hb]
    · rw [if_neg hb, if_neg (by simp [h])]
  · intro hd hp
    simp only [chat_stream]
    rw [if_neg (pyStrip_data_marker_ne d),
      if_pos (pyStartswith_append "data: " d)]
    rw [pyDropChars_data_marker, if_neg hd, hp]
  · intro c hd hp hc
    simp only [chat_stream]
    rw [if_neg (pyStrip_data_marker_ne d),
      if_pos (pyStartswith_append "data: " d)]
    rw [pyDropChars_data_marker, if_neg hd, hp]
    dsimp only
    rw [if_pos hc]

/-- Witness for C9: a malformed payload is skipped without aborting. -/
theorem C9_witness :
    chat_stream (fun _ => (none : Option String)) (("data: " ++ "bad") :: [])
      = chat_stream (fun _ => (none : Option String)) [] :=
  (C9_stream (fun _ => none) "bad" "" []).2.2.2.1 (by decide) rfl

/-- C10: `handle_command_ui` leaves `busy`, `current_request_id`,
`exit_requested`, `panel_visible` and `panel_provider` unchanged for
every input; it mutates `messages` only when the trimmed, lower-cased
input is `/clear` (making it empty) and `model` only when it is
`/model`; and it returns `false` exactly when that input is `/exit` or
`/quit`. -/
theorem C10_command_frame (s : ChatState) (input : String) :
    (handle_command_ui s input).1.busy = s.busy ∧
    (handle_command_ui s input).1.current_request_id = s.current_request_id ∧
    (handle_command_ui s input).1.exit_requested = s.exit_requested ∧
    (handle_command_ui s input).1.panel_visible = s.panel_visible ∧
    (handle_command_ui s input).1.panel_provider = s.panel_provider ∧
    (pyLower (pyStrip input) ≠ "/clear" →
      (handle_command_ui s input).1.messages = s.messages) ∧
    (pyLower (pyStrip input) = "/clear" →
      (handle_command_ui s input).1.messages = []) ∧
    (pyLower (pyStrip input) ≠ "/model" →
      (handle_command_ui s input).1.model = s.model) ∧
    ((handle_command_ui s input).2.2 = false ↔
      (pyLower (pyStrip input) = "/exit" ∨ pyLower (pyStrip input) = "/quit")) := by
  have h := handle_command_ui_frame s input
  refine ⟨h.1, h.2.1, h.2.2.1, h.2.2.2.1, h.2.2.2.2, ?_, ?_, ?_, ?_⟩
  · intro hne
    unfold handle_command_ui
    dsimp only
    split_ifs <;> simp_all
  · intro hcl
    unfold handle_command_ui
    dsimp only
    split_ifs <;> simp_all
  · intro hne
    unfold handle_command_ui
    dsimp only
    split_ifs <;> simp_all
  · unfold handle_command_ui
    dsimp only
    split_ifs <;> simp_all

/-- Witness for C10: `/exit` is the shutdown-requesting result. -/
theorem C10_witness :
    (handle_command_ui initialChatState "/exit").2.2 = false :=
  (C10_command_frame initialChatState "/exit").2.2.2.2.2.2.2.2.mpr
    (Or.inl (by decide))

/-- Over every reachable configuration of `chat_loop`, a set `busy` flag
means the consumer holds an in-flight request whose captured id is the
current epoch. -/
theorem busy_means_inflight {s : SysState} (h : Reachable s) :
    s.cs.busy = true → s.cons = ConsPC.inflight s.cs.current_request_id := by
  induction h with
  | init => intro hb; simp [initSys, initialChatState] at hb
  | step hr hstep ih =>
    rename_i s s2
    cases hstep with
    | prod_top_exit hp he => exact ih
    | prod_top_busy hp he hb => exact ih
    | prod_top_free hp he hb => exact ih
    | prod_poll_exit hp he => exact ih
    | prod_poll_spin hp he hb => exact ih
    | prod_poll_free hp he hb => exact ih
    | prod_eof hp => exact ih
    | prod_submit text hp =>
      intro hb
      have hf := producer_process_frame s.cs text
      rw [show ({ s with
          cs := (producer_process s.cs text).1,
          queue := s.queue ++ ((producer_process s.cs text).2.2).toList,
          arrived := s.arrived ++ ((producer_process s.cs text).2.2).toList,
          prod := prodAfterSubmit s.cs text } : SysState).cs
        = (producer_process s.cs text).1 from rfl] at hb ⊢
      rw [hf.1] at hb
      rw [hf.2]
      exact ih hb
    | cons_get_command t rest hc hq hs2 =>
      intro hb
      have hf := handle_command_path_frame s.cs t
      rw [show ({ s with
          cs := (handle_command_path s.cs t).1,
          queue := rest,
          cons := ConsPC.idle,
          dispatched := s.dispatched ++ [t] } : SysState).cs
        = (handle_command_path s.cs t).1 from rfl] at hb
      rw [hf.1] at hb
      have h2 := ih hb
      rw [hc] at h2
      simp at h2
    | cons_get_message t rest hc hq hs2 =>
      intro hb
      rfl
    | cons_finish rid r hc =>
      intro hb
      rcases finish_busy_or_noop s.cs rid r with h1 | ⟨h1, hne⟩
      · rw [show ({ s with
            cs := (handle_user_input_finish s.cs rid r).1,
            cons := ConsPC.idle } : SysState).cs
          = (handle_user_input_finish s.cs rid r).1 from rfl] at hb
        rw [h1] at hb
        exact absurd hb (by simp)
      · rw [show ({ s with
            cs := (handle_user_input_finish s.cs rid r).1,
            cons := ConsPC.idle } : SysState).cs
          = (handle_user_input_finish s.cs rid r).1 from rfl] at hb
        rw [h1] at hb
        have h2 := ih hb
        rw [hc] at h2
        simp only [ConsPC.inflight.injEq] at h2
        exact absurd h2 hne
    | cons_close hc hp hq =>
      intro hb
      have h2 := ih hb
      rw [hc] at h2
      simp at h2
    | key_ctrl_c =>
      intro hb
      rw [show ({ s with cs := (ctrl_c s.cs).1 } : SysState).cs
        = (ctrl_c s.cs).1 from rfl] at hb
      rw [ctrl_c_busy s.cs] at hb
      exact absurd hb (by simp)
    | key_f2 =>
      intro hb
      exact ih hb

/-- Over every reachable configuration of `chat_loop`, the arrival
history equals the dispatch history followed by the current queue
contents: lines are dequeued strictly in arrival order. -/
theorem queue_fifo {s : SysState} (h : Reachable s) :
    s.arrived = s.dispatched ++ s.queue := by
  induction h with
  | init => rfl
  | step hr hstep ih =>
    rename_i s s2
    cases hstep with
    | prod_top_exit hp he => exact ih
    | prod_top_busy hp he hb => exact ih
    | prod_top_free hp he hb => exact ih
    | prod_poll_exit hp he => exact ih
    | prod_poll_spin hp he hb => exact ih
    | prod_poll_free hp he hb => exact ih
    | prod_eof hp => exact ih
    | prod_submit text hp =>
      show s.arrived ++ _ = s.dispatched ++ (s.queue ++ _)
      rw [ih, List.append_assoc]
    | cons_get_command t rest hc hq hs2 =>
      show s.arrived = (s.dispatched ++ [t]) ++ rest
      rw [ih, hq, List.append_assoc]
      rfl
    | cons_get_message t rest hc hq hs2 =>
      show s.arrived = (s.dispatched ++ [t]) ++ rest
      rw [ih, hq, List.append_assoc]
      rfl
    | cons_finish rid r hc => exact ih
    | cons_close hc hp hq => exact ih
    | key_ctrl_c => exact ih
    | key_f2 => exact ih

/-- C6: along any reachable step of `chat_loop`, (1) the producer enters
a new prompt cycle only from a state where `busy` is clear (while busy
it keeps polling), (2) while `busy` is set the consumer dispatches no
queued line, and (3) the lines placed on the FIFO are dequeued and
processed strictly in arrival order. -/
theorem C6_scheduler (s s2 : SysState) (hr : Reachable s) (hstep : Step s s2) :
    (s.prod ≠ ProdPC.prompting → s2.prod = ProdPC.prompting →
      s.cs.busy = false) ∧
    (s.cs.busy = true → s2.dispatched = s.dispatched) ∧
    s.arrived = s.dispatched ++ s.queue := by
  refine ⟨?_, ?_, queue_fifo hr⟩
  · intro hnp hp2
    cases hstep with
    | prod_top_exit hp he => simp at hp2
    | prod_top_busy hp he hb => simp at hp2
    | prod_top_free hp he hb => exact hb
    | prod_poll_exit hp he => simp at hp2
    | prod_poll_spin hp he hb => exact absurd hp2 hnp
    | prod_poll_free hp he hb => exact hb
    | prod_eof hp => exact absurd hp hnp
    | prod_submit text hp => exact absurd hp hnp
    | cons_get_command t rest hc hq hs2 => exact absurd hp2 hnp
    | cons_get_message t rest hc hq hs2 => exact absurd hp2 hnp
    | cons_finish rid r hc => exact absurd hp2 hnp
    | cons_close hc hp hq => exact absurd hp2 hnp
    | key_ctrl_c => exact absurd hp2 hnp
    | key_f2 => exact absurd hp2 hnp
  · intro hb
    have hcons := busy_means_inflight hr hb
    cases hstep with
    | prod_top_exit hp he => rfl
    | prod_top_busy hp he hb2 => rfl
    | prod_top_free hp he hb2 => rfl
    | prod_poll_exit hp he => rfl
    | prod_poll_spin hp he hb2 => rfl
    | prod_poll_free hp he hb2 => rfl
    | prod_eof hp => rfl
    | prod_submit text hp => rfl
    | cons_get_command t rest hc hq hs2 =>
      rw [hc] at hcons
      simp at hcons
    | cons_get_message t rest hc hq hs2 =>
      rw [hc] at hcons
      simp at hcons
    | cons_finish rid r hc => rfl
    | cons_close hc hp hq => rfl
    | key_ctrl_c => rfl
    | key_f2 => rfl

/-- Witness for C6 on the initial configuration taking its first prompt
step. -/
theorem C6_witness :
    (initSys.prod ≠ ProdPC.prompting →
      ({ initSys with prod := ProdPC.prompting } : SysState).prod
        = ProdPC.prompting →
      initSys.cs.busy = false) ∧
    (initSys.cs.busy = true →
      ({ initSys with prod := ProdPC.prompting } : SysState).dispatched
        = initSys.dispatched) ∧
    initSys.arrived = initSys.dispatched ++ initSys.queue :=
  C6_scheduler initSys { initSys with prod := ProdPC.prompting }
    Reachable.init (Step.prod_top_free initSys rfl rfl rfl)

/-- Witness for C4 on a concrete failing request. -/
theorem C4_witness :
    pyStartswith "hi" "/" = false ∧
    (BackendResult.httpError 500 "oops").isFailure = true ∧
    ((handle_user_input initialChatState "hi"
          (BackendResult.httpError 500 "oops")).1.messages
        = initialChatState.messages ∧
      (handle_user_input initialChatState "hi"
          (BackendResult.httpError 500 "oops")).1.busy = false ∧
      (handle_user_input initialChatState "hi"
          (BackendResult.httpError 500 "oops")).2.any isErrorReport = true) :=
  ⟨by decide, by decide,
    C4_failure_rollback initialChatState "hi" _ (by decide) (by decide)⟩

end AkgCli
